import Mathlib

/-!
Shallow embedding of the download-orchestration subsystem of the NovelReader
repository (src/NovelReader/Library.h, src/NovelReader/Library.cpp), together
with proofs settling the frozen claims about it.

Modelling conventions:
* C++ `int` is modelled as `Int`; `std::stoi` overflow (throw above INT_MAX)
  is modelled explicitly where the code can hit it.
* C++ `float` is modelled as `Rat`; every numeric literal exercised by a
  theorem below (30.0, 40.0, 50.0, 100.0, ...) is exactly representable as a
  `float`, so rounding of `std::stof` is not observable in these statements.
* `std::chrono::system_clock::time_point` is modelled as a count of
  milliseconds since the epoch (`Nat`); `to_time_t` / `from_time_t` keep and
  restore only the whole-second part, which is the only fact about the clock
  the code depends on.
* Filesystem and process side effects (signal files, saves, stop flags) are
  modelled as booleans / explicit data in the result of each operation.
-/

namespace NovelReader

/-- Model of `Library::ContentType` (Library.h). -/
inductive ContentType
  | ALL
  | NOVEL
  | MANGA
  | MANHWA
  | MANHUA
deriving DecidableEq, Repr

/-- Model of `Library::ContentTypeToString` (Library.cpp). -/
def ContentTypeToString : ContentType → String
  | .ALL => "all"
  | .NOVEL => "novel"
  | .MANGA => "manga"
  | .MANHWA => "manhwa"
  | .MANHUA => "manhua"

/-- Value written by `SaveDownloadStates` for the `type` field:
`static_cast<int>(state.type)`. -/
def contentTypeToInt : ContentType → Int
  | .ALL => 0
  | .NOVEL => 1
  | .MANGA => 2
  | .MANHWA => 3
  | .MANHUA => 4

/-- Value read by `LoadDownloadStates` for the `type` field:
`static_cast<ContentType>(n)`. Saved files only ever hold 0..4 (the enum
values produced by `contentTypeToInt`), on which this is the inverse cast. -/
def intToContentType (n : Int) : ContentType :=
  if n = 1 then .NOVEL
  else if n = 2 then .MANGA
  else if n = 3 then .MANHWA
  else if n = 4 then .MANHUA
  else .ALL

/-- Model of `Library::DownloadTask` (Library.h). Field defaults mirror the
C++ default constructor (strings default-construct to ""). -/
structure DownloadTask where
  downloadId : String := ""
  novelName : String := ""
  author : String := ""
  sourceUrl : String := ""
  sourceName : String := ""
  startChapter : Int := 1
  endChapter : Int := -1
  currentChapter : Int := 0
  totalChapters : Int := 0
  isActive : Bool := false
  isPaused : Bool := false
  isComplete : Bool := false
  status : String := ""
  progress : Rat := 0
  lastError : String := ""
  contentType : ContentType := .NOVEL
deriving DecidableEq, Repr

/-- Model of `Library::DownloadState` (Library.h), the durable shadow of a
task. `lastUpdate` is the `system_clock` timestamp in milliseconds. -/
structure DownloadState where
  id : String := ""
  contentName : String := ""
  type : ContentType := .NOVEL
  currentChapter : Int := 0
  totalChapters : Int := 0
  isPaused : Bool := false
  isComplete : Bool := false
  progress : Rat := 0
  lastError : String := ""
  lastUpdate : Nat := 0
deriving DecidableEq, Repr

/-- Character class `\d` of the progress regex. -/
def isDigitCh (c : Char) : Bool := c.isDigit

/-- Character class `\s` of the progress regex (ECMAScript whitespace; the
lines at issue are ASCII). -/
def isSpaceCh (c : Char) : Bool :=
  c == ' ' || c == '\t' || c == '\n' || c == '\x0B' || c == '\x0C' || c == '\r'

/-- Character class `[0-9.]` of the progress regex. -/
def isFloatCh (c : Char) : Bool := c.isDigit || c == '.'

/-- Helper for `std::string::find`: does `hay` contain `sub` at some
position? (`find(sub) != npos`; the empty needle is found at position 0). -/
def listContains (sub : List Char) : List Char → Bool
  | [] => sub.isEmpty
  | c :: t => sub.isPrefixOf (c :: t) || listContains sub t

/-- Model of `line.find(sub) != std::string::npos`. -/
def strContains (line sub : String) : Bool := listContains sub.toList line.toList

/-- Strip an exact literal (the leading `Progress:` of the regex). -/
def stripLit : List Char → List Char → Option (List Char)
  | [], s => some s
  | _ :: _, [] => none
  | l :: ls, c :: cs => if c == l then stripLit ls cs else none

/-- One anchored attempt of the regex
`Progress:\s*(\d+)/(\d+)\s*\(([0-9.]+)%\)` at the head of the input,
returning the three capture groups. Because each greedy piece (`\s*`, `\d+`,
`[0-9.]+`) is followed by a character outside its class, maximal-munch with
no backtracking coincides with ECMAScript semantics. -/
def reMatchAt (s : List Char) : Option (List Char × List Char × List Char) :=
  match stripLit "Progress:".toList s with
  | none => none
  | some s1 =>
    let s2 := s1.dropWhile isSpaceCh
    let d1 := s2.takeWhile isDigitCh
    if d1.isEmpty then none else
    match s2.drop d1.length with
    | '/' :: s3 =>
      let d2 := s3.takeWhile isDigitCh
      if d2.isEmpty then none else
      match (s3.drop d2.length).dropWhile isSpaceCh with
      | '(' :: s5 =>
        let d3 := s5.takeWhile isFloatCh
        if d3.isEmpty then none else
        match s5.drop d3.length with
        | '%' :: ')' :: _ => some (d1, d2, d3)
        | _ => none
      | _ => none
    | _ => none

/-- Model of `std::regex_search` with the progress pattern: the match
starting at the leftmost possible position, if any. -/
def progressSearch : List Char → Option (List Char × List Char × List Char)
  | [] => none
  | c :: t =>
    match reMatchAt (c :: t) with
    | some r => some r
    | none => progressSearch t

/-- Numeric value of a digit string. -/
def digitsToNat (l : List Char) : Nat :=
  l.foldl (fun a c => a * 10 + (c.toNat - 48)) 0

/-- Model of `std::stoi` on a capture of `\d+` (all digits, nonempty):
throws `std::out_of_range` (here `none`) above INT_MAX. -/
def stoiDigits (l : List Char) : Option Int :=
  let n := digitsToNat l
  if n ≤ 2147483647 then some (n : Int) else none

/-- Model of `std::stof` on a capture of `[0-9.]+`: parse the longest valid
prefix `digits[.digits]`; no digits at all throws (here `none`). The values
exercised by the theorems below are exactly representable floats, so the
rational result coincides with the C++ float. -/
def stofFloat (l : List Char) : Option Rat :=
  let ip := l.takeWhile isDigitCh
  match l.drop ip.length with
  | '.' :: r2 =>
    let fp := r2.takeWhile isDigitCh
    if ip.isEmpty && fp.isEmpty then none
    else some (mkRat (digitsToNat ip * 10 ^ fp.length + digitsToNat fp) (10 ^ fp.length))
  | _ => if ip.isEmpty then none else some (mkRat (digitsToNat ip) 1)

/-- The `DownloadState` snapshot built in the regex-success branch of
`Library::ParseProgressLine` and passed to `UpdateDownloadState`. The C++
builds it from the task after the assignments; `lastError` is left
default-constructed (""), and `lastUpdate` is `system_clock::now()`
(`nowWall`, milliseconds). -/
def progressSnapshot (t : DownloadTask) (nowWall : Nat) : DownloadState :=
  { id := t.downloadId
    contentName := t.novelName
    type := t.contentType
    currentChapter := t.currentChapter
    totalChapters := t.totalChapters
    progress := t.progress
    isPaused := false
    isComplete := false
    lastError := ""
    lastUpdate := nowWall }

/-- Model of `Library::ParseProgressLine` (Library.cpp). Returns the mutated
task together with the snapshot handed to `UpdateDownloadState` (`none` when
no snapshot is pushed). The three conversions can throw inside the `try`
block, in which case the fields already assigned keep their new values and
the rest are untouched (the `catch` only logs). When the regex does not
match, the else-branch looks for error and completion keywords. -/
def ParseProgressLine (line : String) (t : DownloadTask) (nowWall : Nat) :
    DownloadTask × Option DownloadState :=
  match progressSearch line.toList with
  | some (d1, d2, d3) =>
    match stoiDigits d1 with
    | none => (t, none)
    | some c =>
      let t1 := { t with currentChapter := c }
      match stoiDigits d2 with
      | none => (t1, none)
      | some tot =>
        match stofFloat d3 with
        | none => (t1, none)
        | some p =>
          let t2 := { t1 with progress := p }
          let t3 := if tot > 0 then { t2 with totalChapters := tot } else t2
          (t3, some (progressSnapshot t3 nowWall))
  | none =>
    if strContains line "Error" || strContains line "error" then
      ({ t with lastError := line }, none)
    else if strContains line "download complete" ||
        strContains line "Download completed successfully" then
      ({ t with isComplete := true, status := "Complete", progress := 100 }, none)
    else (t, none)

/-- One iteration of the reader loop inside the worker thread of
`Library::ExecuteDownloadTask` (Library.cpp, the `while (fgets ...)` body):
dispatch on substrings of the line, delegating to `ParseProgressLine` when
the line mentions `Progress:`. -/
def WorkerReadLine (line : String) (t : DownloadTask) (nowWall : Nat) :
    DownloadTask × Option DownloadState :=
  if strContains line "Progress:" then ParseProgressLine line t nowWall
  else if strContains line "download complete" ||
      strContains line "Successfully downloaded" then
    ({ t with progress := 100, isComplete := true, status := "Complete" }, none)
  else if strContains line "Error" && !strContains line "Error loading sources" then
    ({ t with lastError := line }, none)
  else (t, none)

/-- The upsert performed by `Library::UpdateDownloadState`: replace the first
entry whose id matches, else append. -/
def upsertState (states : List DownloadState) (downloadId : String)
    (st : DownloadState) : List DownloadState :=
  match states with
  | [] => [st]
  | s :: rest =>
    if s.id == downloadId then st :: rest
    else s :: upsertState rest downloadId st

/-- The `std::find_if` lookup by id used throughout Library.cpp. -/
def findState (states : List DownloadState) (downloadId : String) :
    Option DownloadState :=
  states.find? (fun s => s.id == downloadId)

/-- Result of `Library::UpdateDownloadState`: the new in-memory list, whether
`SaveDownloadStates` ran, and the new value of the static `lastSave` clock
(steady-clock seconds). -/
structure UpdateResult where
  states : List DownloadState
  saved : Bool
  lastSave : Int
deriving DecidableEq, Repr

/-- Model of `Library::UpdateDownloadState` (Library.cpp): upsert by id, then
save only when more than 5 seconds have passed since the last save. -/
def UpdateDownloadState (states : List DownloadState) (lastSave now : Int)
    (downloadId : String) (st : DownloadState) : UpdateResult :=
  let states2 := upsertState states downloadId st
  if now - lastSave > 5 then ⟨states2, true, now⟩ else ⟨states2, false, lastSave⟩

/-- The reader loop over a full list of output lines, threading the task and
the persistent state list (each snapshot goes through the unconditional
in-memory upsert of `UpdateDownloadState`; the throttled file save is not
needed for the statements below). -/
def runReadLoopStates (lines : List String) (t : DownloadTask)
    (states : List DownloadState) (nowWall : Nat) :
    DownloadTask × List DownloadState :=
  lines.foldl
    (fun acc line =>
      let r := WorkerReadLine line acc.fst nowWall
      match r.snd with
      | none => (r.fst, acc.snd)
      | some st => (r.fst, upsertState acc.snd st.id st))
    (t, states)

/-- The reader loop restricted to its effect on the task. -/
def runReadLoop (lines : List String) (t : DownloadTask) (nowWall : Nat) :
    DownloadTask :=
  lines.foldl (fun acc line => (WorkerReadLine line acc nowWall).fst) t

/-- How one run of the worker thread of `ExecuteDownloadTask` ends: the pipe
failed to open, the process was read to exhaustion and exited with a code,
or an exception escaped after some prefix of lines was processed. -/
inductive WorkerRun where
  | spawnFail : WorkerRun
  | finished (lines : List String) (exitCode : Int) : WorkerRun
  | exnAfter (lines : List String) (msg : String) : WorkerRun

/-- Model of the worker thread body of `Library::ExecuteDownloadTask`
(task-visible effect): run the reader loop, clear `isActive`, then classify
the exit (the success branch also pushes a completed state snapshot and
refreshes the library, not needed for the task-level statements). -/
def WorkerExec (run : WorkerRun) (t : DownloadTask) (nowWall : Nat) :
    DownloadTask :=
  match run with
  | .spawnFail =>
    { t with isActive := false, status := "Failed",
             lastError := "Failed to start Python process" }
  | .finished lines exitCode =>
    let m0 := runReadLoop lines t nowWall
    let m := { m0 with isActive := false }
    if exitCode = 0 ∧ 0 < m.progress then
      { m with isComplete := true, status := "Complete" }
    else if m.isComplete = false then
      { m with status := "Failed",
               lastError := if m.lastError == "" then "Download process failed"
                            else m.lastError }
    else m
  | .exnAfter lines msg =>
    let m0 := runReadLoop lines t nowWall
    { m0 with isActive := false, status := "Failed", lastError := msg }

/-- Entry of the `activeProcesses` map (`Library::ProcessInfo`, Library.h),
keyed by download id; only the two atomic flags matter to the claims. -/
structure ProcEntry where
  id : String
  shouldStop : Bool := false
  shouldTerminate : Bool := false
deriving DecidableEq, Repr

/-- The fields of `Library::ContentItem` read by `QueueDownloadResume`
(name, sourceName, sourceUrl); the other fields are never consulted by the
modelled operations. -/
structure ContentItem where
  name : String := ""
  sourceName : String := ""
  sourceUrl : String := ""
deriving DecidableEq, Repr

/-- `processIt->second.shouldStop.store(true)` over the map. -/
def setStopFlag (procs : List ProcEntry) (downloadId : String) : List ProcEntry :=
  procs.map (fun p => if p.id == downloadId then { p with shouldStop := true } else p)

/-- `processIt->second.shouldTerminate.store(true)` over the map. -/
def setTerminateFlag (procs : List ProcEntry) (downloadId : String) : List ProcEntry :=
  procs.map (fun p => if p.id == downloadId then { p with shouldTerminate := true } else p)

/-- Model of `Library::QueueDownloadResume` (Library.cpp): look the content
item up by name; if found, append a resume task starting at
`currentChapter + 1` with status "Resuming"; if not found, do nothing. The
unassigned task fields keep their default-constructed values. -/
def QueueDownloadResume (contentLibrary : List ContentItem)
    (queue : List DownloadTask) (st : DownloadState) : List DownloadTask :=
  match contentLibrary.find? (fun item => item.name == st.contentName) with
  | none => queue
  | some item =>
    queue ++ [{ novelName := st.contentName
                sourceName := item.sourceName
                sourceUrl := item.sourceUrl
                startChapter := st.currentChapter + 1
                endChapter := st.totalChapters
                currentChapter := st.currentChapter
                totalChapters := st.totalChapters
                isActive := false
                isPaused := false
                isComplete := false
                status := "Resuming"
                progress := st.progress }]

/-- Result of `Library::PauseDownload`: new state list, new process map,
whether `SaveDownloadStates` ran, whether the `.pause_` signal file was
written. -/
structure PauseResult where
  states : List DownloadState
  procs : List ProcEntry
  saved : Bool
  pauseFileWritten : Bool
deriving DecidableEq, Repr

/-- Model of `Library::PauseDownload` (Library.cpp): everything is guarded by
finding the id in `persistentDownloadStates`. -/
def PauseDownload (states : List DownloadState) (procs : List ProcEntry)
    (downloadId : String) : PauseResult :=
  match findState states downloadId with
  | none => ⟨states, procs, false, false⟩
  | some st =>
    ⟨upsertState states downloadId { st with isPaused := true },
     setStopFlag procs downloadId, true, true⟩

/-- Result of `Library::ResumeDownload`: new state list, new download queue,
whether `SaveDownloadStates` ran, whether removal of the `.pause_` file was
attempted. -/
structure ResumeResult where
  states : List DownloadState
  queue : List DownloadTask
  saved : Bool
  pauseFileRemoved : Bool
deriving DecidableEq, Repr

/-- Model of `Library::ResumeDownload` (Library.cpp): acts only when the id
is found AND the found entry has `isPaused = true`; then clears the pause
flag and the last error, saves, removes the pause file and queues a resume
task via `QueueDownloadResume`. -/
def ResumeDownload (states : List DownloadState) (contentLibrary : List ContentItem)
    (queue : List DownloadTask) (downloadId : String) : ResumeResult :=
  match findState states downloadId with
  | none => ⟨states, queue, false, false⟩
  | some st =>
    if st.isPaused then
      let st2 := { st with isPaused := false, lastError := "" }
      ⟨upsertState states downloadId st2,
       QueueDownloadResume contentLibrary queue st2, true, true⟩
    else ⟨states, queue, false, false⟩

/-- Result of `Library::CancelDownload`: new state list, new process map,
whether `SaveDownloadStates` ran, whether the `.cancel_` signal file was
written, whether `CleanupPartialDownload` wrote the `.cancelled` marker. -/
structure CancelResult where
  states : List DownloadState
  procs : List ProcEntry
  saved : Bool
  cancelFileWritten : Bool
  cancelledMarkerWritten : Bool
deriving DecidableEq, Repr

/-- Model of `Library::CancelDownload` (Library.cpp): everything is guarded
by finding the id in `persistentDownloadStates`; when found, the entry gets
`isComplete = true` and `lastError = "Cancelled by user"`, the file is
saved, the hard-terminate flag is stored and the signal files are written. -/
def CancelDownload (states : List DownloadState) (procs : List ProcEntry)
    (downloadId : String) : CancelResult :=
  match findState states downloadId with
  | none => ⟨states, procs, false, false, false⟩
  | some st =>
    ⟨upsertState states downloadId
        { st with isComplete := true, lastError := "Cancelled by user" },
     setTerminateFlag procs downloadId, true, true, true⟩

/-- Result of the load-and-auto-resume loop of `Library::LoadDownloadStates`. -/
structure LoadResult where
  states : List DownloadState
  queue : List DownloadTask
deriving DecidableEq, Repr

/-- Model of the body of `Library::LoadDownloadStates` after JSON parsing
(Library.cpp): push each entry, and for entries with `isComplete = false`
and `isPaused = false` call `ResumeDownload` on the states loaded so far.
The re-entrant lock of `downloadStateMutex` taken by that inner call is
modelled as granted; under the actual non-recursive `std::mutex` the call
would deadlock, and under neither reading is a resume task queued, because
`ResumeDownload` requires `isPaused = true`. This is the per-entry step of
the loop. -/
def loadStep (contentLibrary : List ContentItem) (acc : LoadResult)
    (st : DownloadState) : LoadResult :=
  let states2 := acc.states ++ [st]
  if !st.isComplete && !st.isPaused then
    let r := ResumeDownload states2 contentLibrary acc.queue st.id
    ⟨r.states, r.queue⟩
  else ⟨states2, acc.queue⟩

/-- The loop of `Library::LoadDownloadStates` as a fold of `loadStep` over
the parsed entries, starting from the cleared list. -/
def LoadDownloadStatesResume (entries : List DownloadState)
    (contentLibrary : List ContentItem) (queue : List DownloadTask) : LoadResult :=
  entries.foldl (loadStep contentLibrary) ⟨[], queue⟩

/-- The `std::regex_replace(contentName, "[^a-zA-Z0-9]", "_")` sanitizer of
`GenerateDownloadId` (exact for ASCII names, the only ones exercised). -/
def sanitizeId (s : String) : String :=
  String.mk (s.toList.map (fun c => if c.isAlphanum then c else '_'))

/-- Model of `Library::GenerateDownloadId` (Library.cpp); `now` is the
`time_t` (epoch seconds) taken from the system clock at the call. -/
def GenerateDownloadId (contentName : String) (type : ContentType) (now : Int) :
    String :=
  ContentTypeToString type ++ "_" ++ sanitizeId contentName ++ "_" ++ toString now

/-- The fields of `Library::SearchResult` (Library.h). -/
structure SearchResult where
  title : String := ""
  author : String := ""
  url : String := ""
  sourceName : String := ""
  totalChapters : Int := 0
  description : String := ""
  coverUrl : String := ""
deriving DecidableEq, Repr

/-- Model of `Library::CreateDownloadTask` (Library.cpp). -/
def CreateDownloadTask (result : SearchResult) (startChapter endChapter : Int)
    (now : Int) : DownloadTask :=
  { downloadId := GenerateDownloadId result.title .NOVEL now
    novelName := result.title
    author := result.author
    sourceUrl := result.url
    sourceName := result.sourceName
    startChapter := startChapter
    endChapter := endChapter
    currentChapter := 0
    totalChapters := result.totalChapters
    isActive := false
    isPaused := false
    isComplete := false
    status := "Queued"
    progress := 0
    lastError := ""
    contentType := .NOVEL }

/-- The download-queue effect of `Library::StartDownload` (Library.cpp):
create the task and `downloadQueue.push_back(task)` unconditionally. There
is no lookup of the new id (or the novel name) in the existing queue. The
novel-list bookkeeping and the manager start are not queue-visible. -/
def StartDownloadQueue (queue : List DownloadTask) (result : SearchResult)
    (startChapter endChapter : Int) (now : Int) : List DownloadTask :=
  queue ++ [CreateDownloadTask result startChapter endChapter now]

/-- Number of queued tasks carrying a given download id. -/
def countTasksWithId (queue : List DownloadTask) (downloadId : String) : Nat :=
  (queue.filter (fun t => t.downloadId == downloadId)).length

/-- Model of `Library::MAX_CONCURRENT_DOWNLOADS` (Library.h). In the source
it only sizes the `downloadProgresses` UI array. -/
def MAX_CONCURRENT_DOWNLOADS : Nat := 3

/-- The queue-visible effect of `Library::ExecuteDownloadTask` when the
manager is not shutting down: mark the task active/downloading and generate
a download id if it has none (`now` is the epoch-seconds clock). Spawning
the worker is not queue-visible. -/
def ExecuteDownloadTaskMark (t : DownloadTask) (now : Int) : DownloadTask :=
  let t1 := { t with isActive := true, status := "Downloading" }
  if t1.downloadId == "" then
    { t1 with downloadId := GenerateDownloadId t1.novelName t1.contentType now }
  else t1

/-- The activation pass of one iteration of `Library::ProcessDownloadQueue`
(Library.cpp): skip complete, paused and active tasks; start the first task
whose status is "Queued" or "Starting" and break; leave the rest as is. -/
def startFirstEligible : List DownloadTask → Int → List DownloadTask
  | [], _ => []
  | t :: rest, now =>
    if t.isComplete || t.isPaused then t :: startFirstEligible rest now
    else if t.isActive then t :: startFirstEligible rest now
    else if !t.isPaused && (t.status == "Queued" || t.status == "Starting") then
      ExecuteDownloadTaskMark t now :: rest
    else t :: startFirstEligible rest now

/-- The cleanup pass of the same iteration: `erase(remove_if ...)` of tasks
with `isComplete && status == "Complete"`. -/
def removeCompleted (q : List DownloadTask) : List DownloadTask :=
  q.filter (fun t => !(t.isComplete && t.status == "Complete"))

/-- One full iteration of the `ProcessDownloadQueue` polling loop with the
shutdown flags clear: activation pass, then cleanup pass. The
`hasActiveDownload` bookkeeping only decides when the manager stops and does
not change the queue. -/
def SchedulerScan (q : List DownloadTask) (now : Int) : List DownloadTask :=
  removeCompleted (startFirstEligible q now)

/-- Number of tasks with `isActive = true`. -/
def activeCount (q : List DownloadTask) : Nat :=
  (q.filter (fun t => t.isActive)).length

/-- One serialized element of the `downloads` array written by
`Library::SaveDownloadStates`; `lastUpdate` is the `time_t` (whole epoch
seconds) produced by `system_clock::to_time_t`. -/
structure StateJson where
  id : String
  contentName : String
  type : Int
  currentChapter : Int
  totalChapters : Int
  isPaused : Bool
  isComplete : Bool
  progress : Rat
  lastError : String
  lastUpdate : Int
deriving DecidableEq, Repr

/-- `system_clock::to_time_t`: keep the whole-second part (model clock is in
milliseconds). -/
def toTimeT (ms : Nat) : Int := Int.ofNat (ms / 1000)

/-- `system_clock::from_time_t`: a timepoint on the second boundary. -/
def fromTimeT (s : Int) : Nat := s.toNat * 1000

/-- Serialization of one state, as in `SaveDownloadStates`. -/
def stateToJson (st : DownloadState) : StateJson :=
  { id := st.id
    contentName := st.contentName
    type := contentTypeToInt st.type
    currentChapter := st.currentChapter
    totalChapters := st.totalChapters
    isPaused := st.isPaused
    isComplete := st.isComplete
    progress := st.progress
    lastError := st.lastError
    lastUpdate := toTimeT st.lastUpdate }

/-- Deserialization of one state, as in `LoadDownloadStates`. -/
def stateOfJson (j : StateJson) : DownloadState :=
  { id := j.id
    contentName := j.contentName
    type := intToContentType j.type
    currentChapter := j.currentChapter
    totalChapters := j.totalChapters
    isPaused := j.isPaused
    isComplete := j.isComplete
    progress := j.progress
    lastError := j.lastError
    lastUpdate := fromTimeT j.lastUpdate }

/-- The whole `downloads/download_states.json` document: a `downloads` array.
`SaveDownloadStates` writes it even when the list is empty. -/
structure StateFile where
  downloads : List StateJson
deriving DecidableEq, Repr

/-- Model of `Library::SaveDownloadStates` (Library.cpp): serialize every
tracked state, wholesale. -/
def SaveDownloadStates (states : List DownloadState) : StateFile :=
  ⟨states.map stateToJson⟩

/-- The read-and-parse phase of `Library::LoadDownloadStates`: a missing
file (`none`) yields no entries. -/
def LoadStatesFromFile : Option StateFile → List DownloadState
  | none => []
  | some f => f.downloads.map stateOfJson

/-- Model of the whole of `Library::LoadDownloadStates` (Library.cpp): parse
the file, then run the push-and-auto-resume loop over the parsed entries. -/
def LoadDownloadStatesFull (file : Option StateFile)
    (contentLibrary : List ContentItem) (queue : List DownloadTask) : LoadResult :=
  LoadDownloadStatesResume (LoadStatesFromFile file) contentLibrary queue

/-- A state whose `lastUpdate` is truncated to its whole-second part, the
image of one save/load round trip. -/
def truncState (st : DownloadState) : DownloadState :=
  { st with lastUpdate := st.lastUpdate / 1000 * 1000 }

/-- True when the line triggers none of the branches of the reader loop of
`ExecuteDownloadTask` (no progress mention, no completion keyword, no error
keyword outside the ignored "Error loading sources" banner). -/
def lineSilent (l : String) : Bool :=
  !strContains l "Progress:" &&
  !(strContains l "download complete" || strContains l "Successfully downloaded") &&
  !(strContains l "Error" && !strContains l "Error loading sources")

/-- Invariant used for the exit classification: a completed task has status
"Complete". -/
def completeHasStatus (t : DownloadTask) : Prop :=
  t.isComplete = true → t.status = "Complete"

/- Concrete fixtures used by the closed theorems below. -/

/-- A search result used by the concrete scenarios. -/
def fooResult : SearchResult :=
  { title := "Foo", author := "A", url := "http://x", sourceName := "s",
    totalChapters := 10 }

/-- The download id generated for `fooResult` at epoch second 100. -/
def fooId : String := GenerateDownloadId "Foo" .NOVEL 100

/-- Two StartDownload calls for the same result in the same second. -/
def fooQueuedTwice : List DownloadTask :=
  StartDownloadQueue (StartDownloadQueue [] fooResult 1 (-1) 100) fooResult 1 (-1) 100

/-- A loaded state that is neither complete nor paused, stopped after
chapter 7 — the resume-eligible state of the startup scenario. -/
def st7 : DownloadState :=
  { id := "novel_Foo_100", contentName := "Foo", currentChapter := 7,
    totalChapters := 10, progress := 70 }

/-- A content library holding the item the state refers to. -/
def fooLib : List ContentItem :=
  [{ name := "Foo", sourceName := "s", sourceUrl := "http://x" }]

/-- An active mid-download task at chapter 3 of 10. -/
def task3 : DownloadTask :=
  { downloadId := "d", novelName := "Foo", status := "Downloading",
    isActive := true, currentChapter := 3, totalChapters := 10, progress := 30 }

/-- The persisted shadow of `task3`. -/
def st3 : DownloadState :=
  { id := "d", contentName := "Foo", currentChapter := 3, totalChapters := 10,
    progress := 30 }

/-- Cancel of the active download `d`. -/
def c3cancel : CancelResult := CancelDownload [st3] [{ id := "d" }] "d"

/-- A further progress line read by the worker of `d` after the cancel. -/
def c3after : DownloadTask × List DownloadState :=
  runReadLoopStates ["Progress: 4/10 (40.0%) - Chapter 4: Y"] task3 c3cancel.states 99

/-- An active task whose totals are already known. -/
def t5 : DownloadTask :=
  { downloadId := "d", novelName := "Foo", status := "Downloading",
    isActive := true, currentChapter := 3, totalChapters := 10, progress := 30 }

/-- `t5` after the fetcher emits chapter 12 of 10. -/
def t5a : DownloadTask :=
  (ParseProgressLine "Progress: 12/10 (50.0%) - Chapter 12: X" t5 0).fst

/-- `t5a` after the fetcher emits a lower percentage. -/
def t5b : DownloadTask :=
  (ParseProgressLine "Progress: 4/10 (40.0%) - Chapter 4: Y" t5a 0).fst

/-- A task mid-download at 10 percent, used to instantiate the amended C5. -/
def t5w : DownloadTask :=
  { downloadId := "d", status := "Downloading", isActive := true, progress := 10 }

/-- A fresh just-activated task, as handed to the worker thread. -/
def freshRunTask : DownloadTask :=
  { downloadId := "d", novelName := "N", status := "Downloading", isActive := true }

/-- A state whose timestamp has a fractional second (1500 ms). -/
def s7 : DownloadState := { id := "d", contentName := "Foo", lastUpdate := 1500 }

/-- A second state, with a distinct id and a whole-second timestamp. -/
def s7b : DownloadState := { id := "e", contentName := "Bar", lastUpdate := 2000 }

/-- A terminal (complete) state snapshot. -/
def stDone : DownloadState :=
  { id := "d", contentName := "Foo", isComplete := true, progress := 100 }

/-- A queued, never-started task as built by `CreateDownloadTask`. -/
def queuedTask : DownloadTask := { novelName := "N", status := "Queued" }

/-- Four scheduler iterations over four queued tasks. -/
def c4queue : List DownloadTask :=
  SchedulerScan (SchedulerScan (SchedulerScan
    (SchedulerScan [queuedTask, queuedTask, queuedTask, queuedTask] 0) 0) 0) 0

/-!  Theorems. -/

/-- C1 (code_bug): at startup the load loop keeps a non-complete, non-paused
state for display but queues NO resume task: the auto-resume call goes
through `ResumeDownload`, whose guard requires `isPaused = true`, so it is a
no-op for exactly the states the policy is supposed to resume (the comment
"Auto-resume incomplete downloads" above the call states the intent; the
claim expects a task starting at chapter 8). The last conjunct shows the
resume task the claim expects — starting at `currentChapter + 1 = 8` — is
what `QueueDownloadResume` would have built had it been reached. -/
theorem c1_startup_autoresume_queues_nothing :
    LoadDownloadStatesResume [st7] fooLib [] = ⟨[st7], []⟩
  ∧ st7.isComplete = false ∧ st7.isPaused = false
  ∧ (QueueDownloadResume fooLib [] st7).map (fun t => t.startChapter) = [8] := by
  decide

/-- C2 (counterexample): two `StartDownload` calls for the same content in
the same second generate the same download id and leave TWO tasks with that
id in the queue — there is no duplicate-submission guard in
`Library::StartDownload`, refuting "exactly one task". -/
theorem c2_duplicate_enqueue_cex :
    countTasksWithId fooQueuedTwice fooId = 2 ∧ countTasksWithId fooQueuedTwice fooId ≠ 1 := by
  decide

/-- C2 (amended): `StartDownload` appends unconditionally; every call adds
one more task carrying the id it generates, whether or not that id is
already queued. -/
theorem c2_enqueue_appends_unconditionally :
    ∀ (q : List DownloadTask) (r : SearchResult) (s e now : Int),
      countTasksWithId (StartDownloadQueue q r s e now)
          (GenerateDownloadId r.title .NOVEL now)
        = countTasksWithId q (GenerateDownloadId r.title .NOVEL now) + 1 := by
  intro q r s e now
  unfold StartDownloadQueue countTasksWithId
  rw [List.filter_append]
  simp [CreateDownloadTask]

/-- C6: the well-formed line parses to currentChapter 3, totalChapters 10,
progress 30.0 for every incoming task; the garbled line
"Progress: x/y (bad)" leaves any task unchanged and pushes no state; and any
line matching neither the progress pattern nor the error/completion keywords
leaves the task unchanged (the function is total, so it never throws). -/
theorem c6_parse_progress_line_cases :
    (∀ (t : DownloadTask) (now : Nat),
      (ParseProgressLine "Progress: 3/10 (30.0%) - Chapter 3: Awakening" t now).fst
        = { t with currentChapter := 3, totalChapters := 10, progress := 30 })
  ∧ (∀ (t : DownloadTask) (now : Nat),
      ParseProgressLine "Progress: x/y (bad)" t now = (t, none))
  ∧ (∀ (line : String) (t : DownloadTask) (now : Nat),
      progressSearch line.toList = none →
      strContains line "Error" = false → strContains line "error" = false →
      strContains line "download complete" = false →
      strContains line "Download completed successfully" = false →
      ParseProgressLine line t now = (t, none)) := by
  refine ⟨fun t now => rfl, fun t now => rfl, fun line t now h1 h2 h3 h4 h5 => ?_⟩
  unfold ParseProgressLine
  rw [h1]
  simp [h2, h3, h4, h5]

/-- C6 witness: the third clause of the theorem at a concrete silent line. -/
theorem c6_parse_progress_line_cases_witness :
    ParseProgressLine "Fetching metadata" task3 7 = (task3, none) :=
  c6_parse_progress_line_cases.2.2 "Fetching metadata" task3 7
    (by decide) (by decide) (by decide) (by decide) (by decide)

/-- Helper: a successful id lookup returns an entry carrying that id. -/
theorem findState_some_id {states : List DownloadState} {id : String}
    {st : DownloadState} (h : findState states id = some st) : st.id = id := by
  have := List.find?_some h
  exact eq_of_beq this

/-- Helper: after an upsert keyed by `id` with an entry carrying `id`, the
lookup by `id` returns exactly that entry. -/
theorem findState_upsert (states : List DownloadState) {id : String}
    {st : DownloadState} (h : st.id = id) :
    findState (upsertState states id st) id = some st := by
  induction states with
  | nil => simp [upsertState, findState, List.find?, h]
  | cons s rest ih =>
    unfold upsertState
    by_cases hs : (s.id == id) = true
    · rw [if_pos hs]
      simp [findState, List.find?, h]
    · rw [if_neg hs]
      simpa [findState, List.find?, hs] using ih

/-- Helper: an upsert keyed by `id` leaves every entry with a different id
untouched. -/
theorem filter_upsert (states : List DownloadState) {id : String}
    {st : DownloadState} (h : st.id = id) :
    (upsertState states id st).filter (fun s => !(s.id == id))
      = states.filter (fun s => !(s.id == id)) := by
  induction states with
  | nil => simp [upsertState, h]
  | cons s rest ih =>
    unfold upsertState
    by_cases hs : (s.id == id) = true
    · rw [if_pos hs]
      simp [List.filter_cons, hs, h]
    · rw [if_neg hs]
      simp [List.filter_cons, hs, ih]

/-- Helper: an upsert grows the list exactly when the id was absent. -/
theorem length_upsert (states : List DownloadState) (id : String)
    (st : DownloadState) :
    (upsertState states id st).length
      = if states.any (fun s => s.id == id) then states.length
        else states.length + 1 := by
  induction states with
  | nil => simp [upsertState]
  | cons s rest ih =>
    unfold upsertState
    by_cases hs : (s.id == id) = true
    · rw [if_pos hs]
      simp [List.any_cons, hs]
    · rw [if_neg hs]
      simp only [List.length_cons, List.any_cons, hs, Bool.false_or, ih]
      by_cases hr : rest.any (fun s => s.id == id) = true <;> simp [hr]

/-- C9 (counterexample): a terminal snapshot (isComplete = true) pushed
through `UpdateDownloadState` three seconds after the previous save performs
NO durable save — the throttle has no exception for terminal transitions
(the immediate flushes live only in Pause/Resume/Cancel, and the worker
completion path goes through this throttled call). -/
theorem c9_terminal_update_not_flushed_cex :
    (UpdateDownloadState [] 0 3 "d" stDone).saved = false
  ∧ stDone.isComplete = true := by
  decide

/-- C9 (amended): `UpdateDownloadState` upserts exactly one entry by
identifier — the lookup afterwards returns the new snapshot, all entries
with other ids are untouched, and the length grows only when the id was
absent — and it saves exactly when more than five seconds have elapsed
since the previous save, with no special case for terminal states. -/
theorem c9_upsert_and_throttle :
    ∀ (states : List DownloadState) (lastSave now : Int) (id : String)
      (st : DownloadState), st.id = id →
      ((UpdateDownloadState states lastSave now id st).saved = true ↔ now - lastSave > 5)
      ∧ findState (UpdateDownloadState states lastSave now id st).states id = some st
      ∧ (UpdateDownloadState states lastSave now id st).states.filter (fun s => !(s.id == id))
          = states.filter (fun s => !(s.id == id))
      ∧ (UpdateDownloadState states lastSave now id st).states.length
          = (if states.any (fun s => s.id == id) then states.length else states.length + 1) := by
  intro states lastSave now id st h
  unfold UpdateDownloadState
  by_cases hc : now - lastSave > 5
  · simp only [if_pos hc]
    exact ⟨by simpa using hc, findState_upsert states h, filter_upsert states h,
      length_upsert states id st⟩
  · simp only [if_neg hc]
    exact ⟨by simpa using hc, findState_upsert states h, filter_upsert states h,
      length_upsert states id st⟩

/-- C9 witness: the amended theorem at a concrete update that is past the
throttle window. -/
theorem c9_upsert_and_throttle_witness :
    ((UpdateDownloadState [st3] 0 7 "d" stDone).saved = true ↔ (7 : Int) - 0 > 5)
  ∧ findState (UpdateDownloadState [st3] 0 7 "d" stDone).states "d" = some stDone
  ∧ (UpdateDownloadState [st3] 0 7 "d" stDone).states.filter (fun s => !(s.id == "d"))
      = [st3].filter (fun s => !(s.id == "d"))
  ∧ (UpdateDownloadState [st3] 0 7 "d" stDone).states.length
      = (if [st3].any (fun s => s.id == "d") then [st3].length else [st3].length + 1) :=
  c9_upsert_and_throttle [st3] 0 7 "d" stDone (by decide)

/-- C10: Pause, Resume and Cancel with an identifier absent from the
persistent state list are complete no-ops: the state list, process flags and
queue are unchanged, and no save, signal file or marker is produced. -/
theorem c10_missing_id_noop :
    ∀ (states : List DownloadState) (procs : List ProcEntry)
      (lib : List ContentItem) (q : List DownloadTask) (id : String),
      findState states id = none →
      PauseDownload states procs id = ⟨states, procs, false, false⟩
      ∧ ResumeDownload states lib q id = ⟨states, q, false, false⟩
      ∧ CancelDownload states procs id = ⟨states, procs, false, false, false⟩ := by
  intro states procs lib q id h
  unfold PauseDownload ResumeDownload CancelDownload
  rw [h]
  exact ⟨rfl, rfl, rfl⟩

/-- C10 witness: the theorem at a concrete list not containing the id. -/
theorem c10_missing_id_noop_witness :
    PauseDownload [st3] [{ id := "d" }] "zzz" = ⟨[st3], [{ id := "d" }], false, false⟩
  ∧ ResumeDownload [st3] fooLib [] "zzz" = ⟨[st3], [], false, false⟩
  ∧ CancelDownload [st3] [{ id := "d" }] "zzz"
      = ⟨[st3], [{ id := "d" }], false, false, false⟩ :=
  c10_missing_id_noop [st3] [{ id := "d" }] fooLib [] "zzz" (by decide)

/-- C5 (counterexample): `ParseProgressLine` copies the parsed numbers
verbatim, enforcing neither bound nor monotonicity: the line
"Progress: 12/10 (50.0%)" leaves `currentChapter = 12 > 10 = totalChapters`,
and the next line "Progress: 4/10 (40.0%)" drops `progress` from 50 to 40
while the task is active. -/
theorem c5_parser_enforces_no_invariant_cex :
    t5a.totalChapters = 10 ∧ t5a.currentChapter = 12
  ∧ ¬ t5a.currentChapter ≤ t5a.totalChapters
  ∧ t5a.progress = 50 ∧ t5b.progress = 40
  ∧ ¬ t5a.progress ≤ t5b.progress := by
  decide

/-- C5 (amended): the invariant holds exactly when the fetcher's own lines
satisfy it: if a progress line parses to `c/tot (p%)` with `c ≤ tot`,
`0 < tot` and `p` at least the task's current percentage, then after
applying it `currentChapter ≤ totalChapters` and the percentage has not
decreased. The parser itself performs no clamping. -/
theorem c5_consistent_lines_keep_invariant :
    ∀ (line : String) (t : DownloadTask) (now : Nat) (d1 d2 d3 : List Char)
      (c tot : Int) (p : Rat),
      progressSearch line.toList = some (d1, d2, d3) →
      stoiDigits d1 = some c → stoiDigits d2 = some tot → stofFloat d3 = some p →
      c ≤ tot → 0 < tot → t.progress ≤ p →
      (ParseProgressLine line t now).fst.currentChapter
          ≤ (ParseProgressLine line t now).fst.totalChapters
      ∧ t.progress ≤ (ParseProgressLine line t now).fst.progress := by
  intro line t now d1 d2 d3 c tot p h1 h2 h3 h4 hct htot hp
  simp only [ParseProgressLine, h1, h2, h3, h4]
  rw [if_pos htot]
  exact ⟨hct, hp⟩

/-- C5 witness: the amended theorem at the well-formed line 3/10 (30%) on a
task standing at 10 percent. -/
theorem c5_consistent_lines_keep_invariant_witness :
    (ParseProgressLine "Progress: 3/10 (30.0%)" t5w 0).fst.currentChapter
        ≤ (ParseProgressLine "Progress: 3/10 (30.0%)" t5w 0).fst.totalChapters
    ∧ t5w.progress ≤ (ParseProgressLine "Progress: 3/10 (30.0%)" t5w 0).fst.progress :=
  c5_consistent_lines_keep_invariant "Progress: 3/10 (30.0%)" t5w 0
    ['3'] ['1', '0'] ['3', '0', '.', '0'] 3 10 30
    (by decide) (by decide) (by decide) (by decide) (by decide) (by decide) (by decide)

/-- Helper: the integer cast round trip of the content type is the
identity. -/
theorem intToContentType_inv (τ : ContentType) :
    intToContentType (contentTypeToInt τ) = τ := by
  cases τ <;> rfl

/-- Helper: deserializing a serialized state truncates the timestamp to its
whole-second part and restores every other field. -/
theorem stateOfJson_stateToJson (st : DownloadState) :
    stateOfJson (stateToJson st) = truncState st := by
  unfold stateOfJson stateToJson truncState toTimeT fromTimeT
  simp only [intToContentType_inv]
  rfl

/-- Helper: looking up the last element just appended, when no earlier entry
carries its id. -/
theorem findState_append_last {acc : List DownloadState} {st : DownloadState}
    (h : ∀ s ∈ acc, s.id ≠ st.id) :
    findState (acc ++ [st]) st.id = some st := by
  induction acc with
  | nil => simp [findState, List.find?]
  | cons a rest ih =>
    have ha : (a.id == st.id) = false := by
      simpa using h a (List.mem_cons_self a rest)
    simp only [List.cons_append, findState, List.find?, ha]
    exact ih (fun s hs => h s (List.mem_cons_of_mem a hs))

/-- Helper: over entries with pairwise-distinct ids that are all new to the
accumulated list, the load loop appends every entry unchanged and queues
nothing (the auto-resume guard `isPaused = true` can never hold for the
entries it is invoked on). -/
theorem loadStep_foldl (lib : List ContentItem) :
    ∀ (entries : List DownloadState) (acc : List DownloadState) (q : List DownloadTask),
      (∀ st ∈ entries, ∀ s ∈ acc, s.id ≠ st.id) →
      entries.Pairwise (fun a b => a.id ≠ b.id) →
      List.foldl (loadStep lib) ⟨acc, q⟩ entries = ⟨acc ++ entries, q⟩ := by
  intro entries
  induction entries with
  | nil => intro acc q _ _; simp
  | cons st rest ih =>
    intro acc q hdisj hpw
    rw [List.foldl_cons]
    have hstep : loadStep lib ⟨acc, q⟩ st = ⟨acc ++ [st], q⟩ := by
      unfold loadStep
      by_cases hc : (!st.isComplete && !st.isPaused) = true
      · rw [if_pos hc]
        have hp : st.isPaused = false := by
          simp only [Bool.and_eq_true, Bool.not_eq_true'] at hc
          exact hc.2
        have hfind : findState (acc ++ [st]) st.id = some st :=
          findState_append_last (fun s hs => hdisj st (List.mem_cons_self st rest) s hs)
        unfold ResumeDownload
        simp [hfind, hp]
      · rw [if_neg hc]
    rw [hstep]
    rw [ih (acc ++ [st]) q ?_ (List.Pairwise.of_cons hpw)]
    · simp
    · intro st2 h2 s hs
      rcases List.mem_append.mp hs with hsl | hsr
      · exact hdisj st2 (List.mem_cons_of_mem st h2) s hsl
      · rcases List.mem_singleton.mp hsr with rfl
        exact (List.pairwise_cons.mp hpw).1 st2 h2

/-- C7 (counterexample): a state whose `lastUpdate` has a fractional second
(1500 ms) does not round-trip: the file stores whole epoch seconds
(`system_clock::to_time_t`), so loading yields 1000 ms, refuting
"every field equal". -/
theorem c7_roundtrip_cex :
    (LoadDownloadStatesFull (some (SaveDownloadStates [s7])) [] []).states ≠ [s7]
  ∧ (LoadDownloadStatesFull (some (SaveDownloadStates [s7])) [] []).states
      = [{ s7 with lastUpdate := 1000 }] := by
  decide

/-- C7 (amended): saving then loading restores every field exactly except
`lastUpdate`, which comes back truncated to its whole-second part (so lists
whose timestamps lie on second boundaries round-trip exactly), leaves the
queue untouched, and the empty list is saved as a file holding an empty
array rather than no file. The distinct-ids hypothesis reflects the
uniqueness the upsert maintains; it rules out the load-loop auto-resume call
touching an earlier duplicate entry. -/
theorem c7_roundtrip_up_to_second_truncation :
    (∀ (l : List DownloadState) (lib : List ContentItem) (q : List DownloadTask),
      l.Pairwise (fun a b => a.id ≠ b.id) →
      LoadDownloadStatesFull (some (SaveDownloadStates l)) lib q = ⟨l.map truncState, q⟩)
  ∧ SaveDownloadStates [] = ⟨[]⟩
  ∧ (∀ st : DownloadState, st.lastUpdate % 1000 = 0 → truncState st = st) := by
  refine ⟨?_, rfl, ?_⟩
  · intro l lib q hpw
    unfold LoadDownloadStatesFull
    have hload : LoadStatesFromFile (some (SaveDownloadStates l))
        = (l.map stateToJson).map stateOfJson := rfl
    rw [hload, List.map_map]
    have hmap : l.map (stateOfJson ∘ stateToJson) = l.map truncState :=
      List.map_congr_left (fun st _ => stateOfJson_stateToJson st)
    rw [hmap]
    unfold LoadDownloadStatesResume
    have hpw2 : (l.map truncState).Pairwise (fun a b => a.id ≠ b.id) :=
      List.Pairwise.map truncState (fun a b hab => hab) hpw
    simpa using loadStep_foldl lib (l.map truncState) [] q
      (fun _ _ _ h => absurd h (List.not_mem_nil _)) hpw2
  · intro st h
    unfold truncState
    rw [Nat.div_mul_cancel (Nat.dvd_of_mod_eq_zero h)]

/-- C7 witness: the first clause at a concrete two-entry list with distinct
ids, one timestamp fractional and one on a second boundary. -/
theorem c7_roundtrip_witness :
    LoadDownloadStatesFull (some (SaveDownloadStates [s7, s7b])) fooLib []
      = ⟨[s7, s7b].map truncState, []⟩ :=
  c7_roundtrip_up_to_second_truncation.1 [s7, s7b] fooLib [] (by decide)

/-- Helper: counting actives over a cons. -/
theorem activeCount_cons (t : DownloadTask) (q : List DownloadTask) :
    activeCount (t :: q) = (if t.isActive then 1 else 0) + activeCount q := by
  unfold activeCount
  rw [List.filter_cons]
  by_cases h : t.isActive = true <;> simp [h, Nat.add_comm]

/-- Helper: the task handed to `ExecuteDownloadTask` comes back active. -/
theorem executeMark_isActive (t : DownloadTask) (now : Int) :
    (ExecuteDownloadTaskMark t now).isActive = true := by
  unfold ExecuteDownloadTaskMark
  by_cases h : (t.downloadId == "") = true <;> simp [h]

/-- Helper: one activation pass starts at most one task. -/
theorem startFirstEligible_le (q : List DownloadTask) (now : Int) :
    activeCount (startFirstEligible q now) ≤ activeCount q + 1 := by
  induction q with
  | nil => simp [startFirstEligible]
  | cons t rest ih =>
    unfold startFirstEligible
    split_ifs with h1 h2 h3
    · rw [activeCount_cons, activeCount_cons]
      omega
    · rw [activeCount_cons, activeCount_cons]
      omega
    · rw [activeCount_cons, activeCount_cons, executeMark_isActive]
      have ht : t.isActive = false := by simpa using h2
      rw [ht]
      simp
      omega
    · rw [activeCount_cons, activeCount_cons]
      omega

/-- Helper: the cleanup pass never increases the active count. -/
theorem removeCompleted_le (q : List DownloadTask) :
    activeCount (removeCompleted q) ≤ activeCount q := by
  unfold activeCount removeCompleted
  exact List.Sublist.length_le (List.Sublist.filter _ (List.filter_sublist q))

/-- C4 (amended): one scheduler iteration activates at most one task — but
nothing in `ProcessDownloadQueue` consults `MAX_CONCURRENT_DOWNLOADS` (which
only sizes the UI progress array), so repeated iterations keep activating
further queued tasks with no bound; see the counterexample with four
actives. Promotion is per-scan, not tied to a completion. -/
theorem c4_scan_activates_at_most_one :
    ∀ (q : List DownloadTask) (now : Int),
      activeCount (SchedulerScan q now) ≤ activeCount q + 1 :=
  fun q now =>
    le_trans (removeCompleted_le (startFirstEligible q now)) (startFirstEligible_le q now)

/-- C4 (counterexample): four queued tasks and four scheduler iterations
leave FOUR active tasks — above the claimed cap of three. Each iteration
skips the already-active tasks and unconditionally starts the next queued
one. -/
theorem c4_cap_exceeded_cex :
    activeCount c4queue = 4 ∧ MAX_CONCURRENT_DOWNLOADS < activeCount c4queue := by
  decide

/-- C3 (counterexample): after cancelling the active download `d` the
persisted entry does carry `isComplete = true` and
`lastError = "Cancelled by user"` — but the very next progress line read by
the worker still updates the task (chapter 4, 40 percent) and overwrites the
persisted entry, resetting `isComplete` to false and wiping the error. The
reader loop never consults the terminate flag, refuting "no further progress
line updates the fields". -/
theorem c3_cancel_then_progress_cex :
    findState c3cancel.states "d"
        = some { st3 with isComplete := true, lastError := "Cancelled by user" }
  ∧ c3after.fst.currentChapter = 4
  ∧ c3after.fst.progress = 40
  ∧ findState c3after.snd "d"
      = some { id := "d", contentName := "Foo", type := .NOVEL, currentChapter := 4,
               totalChapters := 10, progress := 40, isPaused := false,
               isComplete := false, lastError := "", lastUpdate := 99 } := by
  decide

/-- C3 (amended): cancel of a tracked identifier sets `isComplete = true`
and `lastError = "Cancelled by user"` on the persisted entry, flushes the
file, writes the cancel signal file and stores the hard-terminate flag for
the process entry — but the reader loop does not consult that flag: any
later progress line that parses still writes the parsed chapter and percent
into the task and pushes a snapshot with `isComplete = false` keyed by the
same identifier. -/
theorem c3_cancel_marks_state_but_lines_still_apply :
    (∀ (states : List DownloadState) (procs : List ProcEntry) (id : String)
      (st : DownloadState),
      findState states id = some st →
      findState (CancelDownload states procs id).states id
          = some { st with isComplete := true, lastError := "Cancelled by user" }
        ∧ (CancelDownload states procs id).saved = true
        ∧ (CancelDownload states procs id).cancelFileWritten = true
        ∧ (∀ p ∈ (CancelDownload states procs id).procs,
            p.id = id → p.shouldTerminate = true))
  ∧ (∀ (line : String) (t : DownloadTask) (now : Nat) (d1 d2 d3 : List Char)
      (c tot : Int) (p : Rat),
      strContains line "Progress:" = true →
      progressSearch line.toList = some (d1, d2, d3) →
      stoiDigits d1 = some c → stoiDigits d2 = some tot → stofFloat d3 = some p →
      (WorkerReadLine line t now).fst.currentChapter = c
        ∧ (WorkerReadLine line t now).fst.progress = p
        ∧ ∃ snap, (WorkerReadLine line t now).snd = some snap
            ∧ snap.id = t.downloadId ∧ snap.isComplete = false ∧ snap.progress = p) := by
  constructor
  · intro states procs id st h
    have hid : st.id = id := findState_some_id h
    unfold CancelDownload
    simp only [h]
    refine ⟨findState_upsert states hid, trivial, trivial, ?_⟩
    intro p hp hpid
    unfold setTerminateFlag at hp
    rcases List.mem_map.mp hp with ⟨q0, hq0, rfl⟩
    by_cases hb : (q0.id == id) = true
    · rw [if_pos hb]
    · rw [if_neg hb] at hpid ⊢
      exact absurd (beq_iff_eq.mpr hpid) hb
  · intro line t now d1 d2 d3 c tot p hcont h1 h2 h3 h4
    unfold WorkerReadLine
    rw [if_pos hcont]
    simp only [ParseProgressLine, h1, h2, h3, h4]
    by_cases htot : tot > 0
    · rw [if_pos htot]
      simp [progressSnapshot]
    · rw [if_neg htot]
      simp [progressSnapshot]

/-- C3 witness: the amended theorem at the concrete cancelled download and
the concrete post-cancel progress line. -/
theorem c3_cancel_marks_state_witness :
    findState (CancelDownload [st3] [{ id := "d" }] "d").states "d"
        = some { st3 with isComplete := true, lastError := "Cancelled by user" }
  ∧ (WorkerReadLine "Progress: 4/10 (40.0%) - Chapter 4: Y" task3 99).fst.progress = 40 :=
  ⟨(c3_cancel_marks_state_but_lines_still_apply.1 [st3] [{ id := "d" }] "d" st3
      (by decide)).1,
   (c3_cancel_marks_state_but_lines_still_apply.2
      "Progress: 4/10 (40.0%) - Chapter 4: Y" task3 99
      ['4'] ['1', '0'] ['4', '0', '.', '0'] 4 10 40
      (by decide) (by decide) (by decide) (by decide) (by decide)).2.1⟩

/-- Helper: a line triggering no branch of the reader loop leaves the task
unchanged and pushes nothing. -/
theorem workerReadLine_silent (l : String) (t : DownloadTask) (now : Nat)
    (h : lineSilent l = true) : WorkerReadLine l t now = (t, none) := by
  unfold lineSilent at h
  simp only [Bool.and_eq_true, Bool.not_eq_true'] at h
  obtain ⟨⟨h1, h2⟩, h3⟩ := h
  unfold WorkerReadLine
  simp [h1, h2, h3]

/-- Helper: a run of silent lines leaves the task unchanged. -/
theorem runReadLoop_silent (lines : List String) (t : DownloadTask) (now : Nat)
    (h : ∀ l ∈ lines, lineSilent l = true) : runReadLoop lines t now = t := by
  induction lines generalizing t with
  | nil => rfl
  | cons l rest ih =>
    unfold runReadLoop
    rw [List.foldl_cons, workerReadLine_silent l t now (h l (List.mem_cons_self l rest))]
    exact ih t (fun l2 hl2 => h l2 (List.mem_cons_of_mem l hl2))

/-- Helper: `ParseProgressLine` either preserves both `isComplete` and
`status`, or establishes completion with status "Complete". -/
theorem parseProgressLine_status_cases (line : String) (t : DownloadTask) (now : Nat) :
    ((ParseProgressLine line t now).fst.isComplete = t.isComplete
      ∧ (ParseProgressLine line t now).fst.status = t.status)
    ∨ ((ParseProgressLine line t now).fst.isComplete = true
      ∧ (ParseProgressLine line t now).fst.status = "Complete") := by
  unfold ParseProgressLine
  repeat' split
  all_goals simp

/-- Helper: the same dichotomy for one iteration of the reader loop. -/
theorem workerReadLine_status_cases (line : String) (t : DownloadTask) (now : Nat) :
    ((WorkerReadLine line t now).fst.isComplete = t.isComplete
      ∧ (WorkerReadLine line t now).fst.status = t.status)
    ∨ ((WorkerReadLine line t now).fst.isComplete = true
      ∧ (WorkerReadLine line t now).fst.status = "Complete") := by
  unfold WorkerReadLine
  split
  · exact parseProgressLine_status_cases line t now
  · split
    · right
      exact ⟨rfl, rfl⟩
    · split
      · left
        exact ⟨rfl, rfl⟩
      · left
        exact ⟨rfl, rfl⟩

/-- Helper: the reader loop maintains "complete implies status Complete". -/
theorem runReadLoop_complete_status (lines : List String) (t : DownloadTask)
    (now : Nat) (h0 : completeHasStatus t) :
    completeHasStatus (runReadLoop lines t now) := by
  induction lines generalizing t with
  | nil => exact h0
  | cons l rest ih =>
    unfold runReadLoop
    rw [List.foldl_cons]
    have h1 : completeHasStatus (WorkerReadLine l t now).fst := by
      rcases workerReadLine_status_cases l t now with ⟨hc, hs⟩ | ⟨hc, hs⟩
      · intro hx
        rw [hs]
        exact h0 (hc ▸ hx)
      · intro _
        exact hs
    exact ih (WorkerReadLine l t now).fst h1

/-- C8: (1) on every exit path of the worker — spawn failure, normal process
exit, escaped exception — the task ends with `isActive = false`; (2) a zero
exit code together with a parsed completion signal or positive observed
progress marks the task complete with status "Complete"; (3) a non-zero exit
of a fresh task whose output produced no progress, completion or error line
is marked "Failed" with the generic message. -/
theorem c8_worker_exit_paths :
    (∀ (run : WorkerRun) (t : DownloadTask) (now : Nat),
      (WorkerExec run t now).isActive = false)
  ∧ (∀ (lines : List String) (code : Int) (t : DownloadTask) (now : Nat),
      t.isComplete = false → code = 0 →
      ((runReadLoop lines t now).isComplete = true
        ∨ 0 < (runReadLoop lines t now).progress) →
      (WorkerExec (.finished lines code) t now).isComplete = true
        ∧ (WorkerExec (.finished lines code) t now).status = "Complete")
  ∧ (∀ (lines : List String) (code : Int) (t : DownloadTask) (now : Nat),
      code ≠ 0 → t.isComplete = false → t.lastError = "" →
      (∀ l ∈ lines, lineSilent l = true) →
      (WorkerExec (.finished lines code) t now).status = "Failed"
        ∧ (WorkerExec (.finished lines code) t now).lastError
            = "Download process failed") := by
  refine ⟨?_, ?_, ?_⟩
  · intro run t now
    cases run with
    | spawnFail => rfl
    | finished lines code =>
      simp only [WorkerExec]
      split_ifs <;> rfl
    | exnAfter lines msg => rfl
  · intro lines code t now hc0 hcode hprog
    have hinv : completeHasStatus (runReadLoop lines t now) :=
      runReadLoop_complete_status lines t now (fun hx => absurd hx (by simp [hc0]))
    simp only [WorkerExec]
    by_cases hpos : 0 < (runReadLoop lines t now).progress
    · rw [if_pos ⟨hcode, hpos⟩]
      exact ⟨rfl, rfl⟩
    · have hcomp : (runReadLoop lines t now).isComplete = true := hprog.resolve_right hpos
      rw [if_neg (fun hand => hpos hand.2), if_neg (by simp [hcomp])]
      exact ⟨hcomp, hinv hcomp⟩
  · intro lines code t now hcode hc0 herr hsilent
    have hrl : runReadLoop lines t now = t := runReadLoop_silent lines t now hsilent
    simp only [WorkerExec, hrl]
    rw [if_neg (fun hand => hcode hand.1), if_pos hc0]
    exact ⟨rfl, by simp [herr]⟩

/-- C8 witness: the three clauses at concrete runs — a successful run with
one progress line, a failing run with silent output, and a spawn failure. -/
theorem c8_worker_exit_paths_witness :
    (WorkerExec (.finished ["Progress: 3/10 (30.0%)"] 0) freshRunTask 0).isComplete = true
  ∧ (WorkerExec (.finished ["warming up"] 1) freshRunTask 0).lastError
      = "Download process failed"
  ∧ (WorkerExec .spawnFail freshRunTask 0).isActive = false :=
  ⟨(c8_worker_exit_paths.2.1 ["Progress: 3/10 (30.0%)"] 0 freshRunTask 0 (by decide) rfl
      (by decide)).1,
   (c8_worker_exit_paths.2.2 ["warming up"] 1 freshRunTask 0 (by decide) (by decide)
      (by decide) (by decide)).2,
   c8_worker_exit_paths.1 .spawnFail freshRunTask 0⟩

end NovelReader
